import Mathlib

/-!
Shallow embedding of the ProcessMonitor monitoring core
(src/ProcessMonitor.c) and proofs about its termination policy,
CPU accounting, history sweep, notification cooldown, config
clamping and snapshot backoff.

Machine integers are modelled as Nat / Int with explicit reduction
modulo 2 to the 64 where the C code performs unsigned 64-bit
arithmetic.  Floating point quantities (CPU percentages) are
modelled as rationals.  External OS calls are modelled by an
environment record supplying each call's outcome.
-/

namespace ProcessMonitor

/-- Wide strings (WCHAR arrays) are modelled as lists of characters. -/
abbrev WStr := List Char

-- -------------------- Configuration constants --------------------

def MAX_PATH_LEN : Nat := 260
def TERMINATE_RETRY_LIMIT : Nat := 5
def SUSPICIOUS_BALLOON_COOLDOWN_MS : Nat := 5 * 60 * 1000

def MIN_MONITOR_INTERVAL_MS : Nat := 1000
def MAX_MONITOR_INTERVAL_MS : Nat := 60000
def MIN_CPU_THRESHOLD : Nat := 1
def MAX_CPU_THRESHOLD : Nat := 100
def MIN_MEM_THRESHOLD_MB : Nat := 1
def MAX_MEM_THRESHOLD_MB : Nat := 65536
def MIN_HANG_TIMEOUT_MS : Nat := 1000
def MAX_HANG_TIMEOUT_MS : Nat := 30000
def MIN_LOG_SIZE_BYTES : Nat := 1024
def MAX_LOG_SIZE_BYTES : Nat := 100 * 1024 * 1024
def MIN_MAX_HUNG_WINDOWS : Nat := 10
def MAX_MAX_HUNG_WINDOWS : Nat := 5000

/-- 2^64, the modulus of ULONGLONG arithmetic. -/
def U64 : Nat := 2 ^ 64

/-- Unsigned 64-bit subtraction `a - b` (wrapping), as in C ULONGLONG. -/
def u64sub (a b : Nat) : Nat := (((a : Int) - (b : Int)).emod (U64 : Int)).toNat

-- -------------------- Data model --------------------

/-- Kernel/user/creation FILETIME triple in 100ns units
(GetProcessTimes result). -/
structure FileTimes where
  ftCreate : Nat
  ftKernel : Nat
  ftUser : Nat
  deriving DecidableEq, Repr

/-- One PROCESS_HISTORY list node. -/
structure ProcessHistory where
  pid : Nat
  ftCreate : Nat
  ftKernel : Nat
  ftUser : Nat
  perfTime : Int
  terminateAttempts : Nat
  terminateAttemptsHung : Nat
  terminateLogSent : Bool
  terminateLogSentHung : Bool
  seen : Bool
  deriving DecidableEq, Repr

/-- Outcome of one TryTerminateProcess external interaction:
OpenProcess(PROCESS_TERMINATE) fails, TerminateProcess succeeds,
or TerminateProcess fails. -/
inductive TermOutcome where
  | success
  | openFail
  | termFail
  deriving DecidableEq, Repr

/-- Outcomes of the external OS calls made while checking a single
process in one scan. -/
structure ProcEnv where
  /-- GetProcessPathW result ([] when the path cannot be resolved). -/
  path : WStr
  /-- OpenProcessForQuery success. -/
  openQueryOk : Bool
  /-- OpenProcess(PROCESS_QUERY_LIMITED_INFORMATION or PROCESS_VM_READ)
  success in CheckSystemProcess. -/
  openLimitedOk : Bool
  /-- OpenProcess success inside FindOrCreateHistory. -/
  histOpenOk : Bool
  /-- GetProcessTimes result. -/
  times : Option FileTimes
  /-- QueryPerformanceCounter inside FindOrCreateHistory. -/
  perfAtCreate : Int
  /-- QueryPerformanceCounter inside CalcCpuUsage. -/
  nowPerf : Int
  /-- QueryPerformanceFrequency. -/
  perfFreq : Int
  /-- GetSystemTimeAsFileTime in CalcAverageCpuUsage, 100ns units. -/
  nowSys : Nat
  /-- GetProcessMemoryInfo working set in MB; none when the call fails. -/
  mem : Option Nat
  /-- Outcome of a termination attempt this scan. -/
  termOutcome : TermOutcome
  /-- malloc success for a new history node. -/
  allocHistOk : Bool
  /-- malloc success for a new balloon-cooldown node. -/
  allocBalloonOk : Bool
  /-- GetTickCount64. -/
  now : Nat
  deriving DecidableEq, Repr

/-- CONFIG: the numeric policy fields plus flags and exclusions. -/
structure Config where
  monitorIntervalMs : Nat
  cpuThresholdPercent : Nat
  memThresholdMb : Nat
  hangTimeoutMs : Nat
  logMaxSizeBytes : Nat
  maxHungWindows : Nat
  notifyOnTermination : Bool
  excludeList : List WStr
  monitoringDefault : Bool
  deriving DecidableEq, Repr

/-- Observable actions of a single process check: structured log
events, balloons, and calls of the termination routine. -/
inductive Event where
  /-- LogEvent with isSuspicious = TRUE (system-process path). -/
  | suspiciousLog
  /-- Cooldown-gated balloon on the system-process path. -/
  | suspiciousBalloon
  /-- LogEvent with isSuspicious = FALSE before a termination attempt. -/
  | breachLog
  /-- Balloon inside LogEvent(FALSE) when NotifyOnTermination is set. -/
  | termNotifyBalloon
  /-- A call of TryTerminateProcess (a termination attempt). -/
  | termAttempt
  /-- Failed to open the process for termination. -/
  | termOpenFailLog
  /-- Termination succeeded. -/
  | termSuccessLog
  /-- TerminateProcess failed. -/
  | termFailLog
  /-- One of the "termination attempts exhausted" messages. -/
  | exhaustedLog
  deriving DecidableEq, Repr

-- -------------------- CPU usage calculation --------------------

/-- The ULONGLONG CPU-time delta (k2 - k1) + (u2 - u1) of CalcCpuUsage,
wrapping modulo 2^64 like the C unsigned arithmetic. -/
def cpuTimeDelta (ft : FileTimes) (hist : ProcessHistory) : Nat :=
  ((((ft.ftKernel : Int) - (hist.ftKernel : Int)) +
    (((ft.ftUser : Int) - (hist.ftUser : Int)))).emod (U64 : Int)).toNat

/-- CalcCpuUsage: instantaneous CPU percent from the cached baseline.
`handleOk` models `hProcess != NULL`; `times` the GetProcessTimes
result.  Returns the percentage (-1 as the unavailable sentinel)
and the updated history entry (the baseline advances only when a
nonzero delta over a positive wall interval was measured). -/
def CalcCpuUsage (handleOk : Bool) (times : Option FileTimes)
    (nowPerf perfFreq : Int) (hist : ProcessHistory) : ℚ × ProcessHistory :=
  if !handleOk then (-1, hist)
  else
    match times with
    | none => (-1, hist)
    | some ft =>
      let timeDelta := cpuTimeDelta ft hist
      if timeDelta = 0 then (0, hist)
      else
        let seconds : ℚ := ((nowPerf - hist.perfTime : Int) : ℚ) / ((perfFreq : Int) : ℚ)
        if seconds ≤ 0 then (0, hist)
        else
          let cpuPercent : ℚ := ((timeDelta : ℚ) / 10000) / seconds / 10
          (cpuPercent,
           { hist with ftKernel := ft.ftKernel, ftUser := ft.ftUser, perfTime := nowPerf })

/-- CalcAverageCpuUsage: lifetime CPU time over wall-clock age. -/
def CalcAverageCpuUsage (handleOk : Bool) (times : Option FileTimes)
    (nowSys : Nat) : ℚ :=
  if !handleOk then -1
  else
    match times with
    | none => -1
    | some ft =>
      let totalTime := (ft.ftKernel + ft.ftUser) % U64
      let age := (((nowSys : Int) - (ft.ftCreate : Int)).emod (U64 : Int)).toNat
      if age = 0 then 0
      else ((totalTime : ℚ) / 10000) / ((age : ℚ) / 10000000) / 10

-- -------------------- Hung window set --------------------

/-- IsProcessHung: membership of a pid in the scan's hung list. -/
def IsProcessHung (pid : Nat) : List Nat → Bool
  | [] => false
  | p :: rest => if p = pid then true else IsProcessHung pid rest

-- -------------------- Termination helpers --------------------

/-- TryTerminateProcess: attempts to open and terminate.  Returns
(succeeded, attempts, logSent, events).  The counter is incremented
only when TerminateProcess itself fails, and the one-shot exhaustion
message fires when that increment reaches the retry limit.  (The
one-time access-denied permission balloon is not modelled.) -/
def TryTerminateProcess (outcome : TermOutcome) (attempts : Nat)
    (logSent : Bool) : Bool × Nat × Bool × List Event :=
  match outcome with
  | .openFail => (false, attempts, logSent, [.termAttempt, .termOpenFailLog])
  | .success => (true, attempts, logSent, [.termAttempt, .termSuccessLog])
  | .termFail =>
    let attempts2 := attempts + 1
    if !logSent && decide (attempts2 ≥ TERMINATE_RETRY_LIMIT) then
      (false, attempts2, true, [.termAttempt, .termFailLog, .exhaustedLog])
    else
      (false, attempts2, logSent, [.termAttempt, .termFailLog])

/-- The breach reason picked by FormatReason. -/
inductive Reason where
  | highCpu
  | highMem
  | windowHung
  deriving DecidableEq, Repr

/-- FormatReason: priority-ordered reason selection (empty buffer is
modelled as none). -/
def FormatReason (cpu : ℚ) (cpuThreshold : Nat) (memValid : Bool)
    (memMB memThreshold : Nat) (hung : Bool) : Option Reason :=
  if cpu > (cpuThreshold : ℚ) then some .highCpu
  else if memValid ∧ memMB > memThreshold then some .highMem
  else if hung then some .windowHung
  else none

/-- MeasureProcessResources: CPU percent (clamped at 0), memory MB and
validity, and the (possibly rebaselined) history entry. -/
def MeasureProcessResources (times : Option FileTimes) (nowPerf perfFreq : Int)
    (mem : Option Nat) (hist : ProcessHistory) : ℚ × Nat × Bool × ProcessHistory :=
  let r := CalcCpuUsage true times nowPerf perfFreq hist
  let cpu := if r.1 < 0 then 0 else r.1
  match mem with
  | some m => (cpu, m, true, r.2)
  | none => (cpu, 0, false, r.2)

/-- CheckProcessResourcesAndTerminate.  The entry result is none when
the process was successfully terminated (RemoveHistory). -/
def CheckProcessResourcesAndTerminate (env : ProcEnv) (cfg : Config)
    (pid : Nat) (hungList : List Nat) (hist : ProcessHistory) :
    Option ProcessHistory × List Event :=
  let m := MeasureProcessResources env.times env.nowPerf env.perfFreq env.mem hist
  let cpu := m.1
  let memMB := m.2.1
  let memValid := m.2.2.1
  let hist1 := m.2.2.2
  let hung := IsProcessHung pid hungList
  match FormatReason cpu cfg.cpuThresholdPercent memValid memMB cfg.memThresholdMb hung with
  | some _ =>
    if hist1.terminateAttempts ≥ TERMINATE_RETRY_LIMIT then
      if hist1.terminateLogSent then (some hist1, [])
      else (some { hist1 with terminateLogSent := true }, [.exhaustedLog])
    else
      let evs0 := Event.breachLog ::
        (if cfg.notifyOnTermination then [Event.termNotifyBalloon] else [])
      let t := TryTerminateProcess env.termOutcome hist1.terminateAttempts hist1.terminateLogSent
      if t.1 then (none, evs0 ++ t.2.2.2)
      else (some { hist1 with terminateAttempts := t.2.1, terminateLogSent := t.2.2.1 },
            evs0 ++ t.2.2.2)
  | none => (some { hist1 with terminateAttempts := 0, terminateLogSent := false }, [])

/-- CheckProcessHungAndTerminate.  `hist = none` models a NULL history
pointer (allocation failure); in that case attempts start from the
local zeros and increments are lost.  A none result for a some input
means the entry was removed after successful termination. -/
def CheckProcessHungAndTerminate (outcome : TermOutcome) (pid : Nat)
    (hungList : List Nat) (hist : Option ProcessHistory) :
    Option ProcessHistory × List Event :=
  if !(IsProcessHung pid hungList) then
    (match hist with
     | some h => some { h with terminateAttemptsHung := 0 }
     | none => none, [])
  else
    let attempts := match hist with | some h => h.terminateAttemptsHung | none => 0
    let logSent := match hist with | some h => h.terminateLogSentHung | none => false
    if attempts ≥ TERMINATE_RETRY_LIMIT then
      match hist with
      | some h =>
        if logSent then (some h, [])
        else (some { h with terminateLogSentHung := true }, [.exhaustedLog])
      | none => (none, [])
    else
      let t := TryTerminateProcess outcome attempts logSent
      if t.1 then (none, t.2.2.2)
      else
        (match hist with
         | some h => some { h with terminateAttemptsHung := t.2.1,
                                   terminateLogSentHung := t.2.2.1 }
         | none => none, t.2.2.2)

-- -------------------- Name and path comparison --------------------

/-- towlower as used by _wcsicmp (ASCII case folding suffices for the
names involved). -/
def wcharLower (c : Char) : Char := c.toLower

/-- _wcsicmp equality: case-insensitive string comparison. -/
def wcsicmpEq (a b : WStr) : Bool := a.map wcharLower == b.map wcharLower

/-- _wcsnicmp with the first argument's length: case-insensitive
prefix test of `p` against `s`. -/
def wcsniPrefixEq (p s : WStr) : Bool :=
  (s.take p.length).map wcharLower == p.map wcharLower

/-- The three trusted system directory prefixes cached in GLOBAL. -/
structure SysDirs where
  sysDir32 : WStr
  sysDir64 : WStr
  sysDirDrivers : WStr
  deriving DecidableEq, Repr

/-- IsSystemDirectory: the resolved path starts with one of the
trusted directory prefixes (case-insensitively). -/
def IsSystemDirectory (dirs : SysDirs) (fullPath : WStr) : Bool :=
  if fullPath = [] then false
  else if wcsniPrefixEq dirs.sysDir32 fullPath then true
  else if wcsniPrefixEq dirs.sysDir64 fullPath then true
  else if wcsniPrefixEq dirs.sysDirDrivers fullPath then true
  else false

/-- The fixed allowlist of operating-system-critical process names. -/
def systemNames : List WStr :=
  ["csrss.exe".toList, "services.exe".toList, "lsass.exe".toList, "lsm.exe".toList,
   "smss.exe".toList, "wininit.exe".toList, "winlogon.exe".toList, "system".toList,
   "system.exe".toList, "svchost.exe".toList, "dwm.exe".toList, "conhost.exe".toList,
   "spoolsv.exe".toList, "taskhost.exe".toList, "taskhostw.exe".toList,
   "explorer.exe".toList, "fontdrvhost.exe".toList, "SearchIndexer.exe".toList,
   "SearchHost.exe".toList, "RuntimeBroker.exe".toList,
   "SecurityHealthService.exe".toList, "SecurityHealthSystray.exe".toList,
   "SgrmBroker.exe".toList, "StartMenuExperienceHost.exe".toList,
   "TextInputHost.exe".toList, "Widgets.exe".toList, "WindowsTerminal.exe".toList,
   "wlanext.exe".toList, "WmiPrvSE.exe".toList, "WUDFHost.exe".toList,
   "dllhost.exe".toList, "taskeng.exe".toList, "audiodg.exe".toList,
   "LogonUI.exe".toList, "userinit.exe".toList]

/-- IsBuiltInExcluded: name on the allowlist, and either no resolvable
path (treated as system) or a path under a trusted system directory. -/
def IsBuiltInExcluded (dirs : SysDirs) (fileName fullPath : WStr) : Bool :=
  if !(systemNames.any (fun s => wcsicmpEq fileName s)) then false
  else if fullPath = [] then true
  else IsSystemDirectory dirs fullPath

/-- IsProcessExcluded: the user-configured exclusion list. -/
def IsProcessExcluded (nameW : WStr) (cfg : Config) : Bool :=
  cfg.excludeList.any (fun e => wcsicmpEq nameW e)

-- -------------------- Balloon cooldown cache --------------------

/-- One BALLOON_COOLDOWN node: process name and last-notified tick. -/
structure BalloonCooldown where
  processName : WStr
  lastTick : Nat
  deriving DecidableEq, Repr

/-- The traversal of ShouldShowBalloonForProcess: first node whose name
matches case-insensitively decides; none when no node matches. -/
def cooldownLookup (now : Nat) (name : WStr) :
    List BalloonCooldown → Option (Bool × List BalloonCooldown)
  | [] => none
  | c :: rest =>
    if wcsicmpEq c.processName name then
      if u64sub now c.lastTick < SUSPICIOUS_BALLOON_COOLDOWN_MS then
        some (false, c :: rest)
      else
        some (true, { c with lastTick := now } :: rest)
    else
      match cooldownLookup now name rest with
      | some r => some (r.1, c :: r.2)
      | none => none

/-- ShouldShowBalloonForProcess: cooldown-gated notification decision.
On a first occurrence a node is prepended (name truncated to
MAX_PATH_LEN - 1 characters by wcsncpy_s); when that allocation fails
the call still allows but inserts nothing. -/
def ShouldShowBalloonForProcess (now : Nat) (allocOk : Bool) (name : WStr)
    (cache : List BalloonCooldown) : Bool × List BalloonCooldown :=
  if name = [] then (false, cache)
  else
    match cooldownLookup now name cache with
    | some r => r
    | none =>
      if allocOk then (true, ⟨name.take (MAX_PATH_LEN - 1), now⟩ :: cache)
      else (true, cache)

-- -------------------- Process history table --------------------

/-- Walk of FindOrCreateHistory that looks for an existing node. -/
def findHistFirst (pid : Nat) : List ProcessHistory → Option ProcessHistory
  | [] => none
  | h :: t => if h.pid = pid then some h else findHistFirst pid t

/-- Marking the found node seen, in place. -/
def markSeenFirst (pid : Nat) : List ProcessHistory → List ProcessHistory
  | [] => []
  | h :: t => if h.pid = pid then { h with seen := true } :: t
              else h :: markSeenFirst pid t

/-- The fresh node FindOrCreateHistory builds: zeroed, seen, and
baselined from the current process times when they are obtainable. -/
def freshHistory (env : ProcEnv) (pid : Nat) : ProcessHistory :=
  let base : ProcessHistory :=
    { pid := pid, ftCreate := 0, ftKernel := 0, ftUser := 0, perfTime := 0,
      terminateAttempts := 0, terminateAttemptsHung := 0,
      terminateLogSent := false, terminateLogSentHung := false, seen := true }
  if env.histOpenOk then
    match env.times with
    | some ft =>
      { base with ftCreate := ft.ftCreate, ftKernel := ft.ftKernel,
                  ftUser := ft.ftUser, perfTime := env.perfAtCreate }
    | none => base
  else base

/-- FindOrCreateHistory: find and mark seen, or prepend a fresh node
(none and an unchanged table on allocation failure). -/
def FindOrCreateHistory (env : ProcEnv) (pid : Nat)
    (table : List ProcessHistory) : Option ProcessHistory × List ProcessHistory :=
  match findHistFirst pid table with
  | some h => (some { h with seen := true }, markSeenFirst pid table)
  | none =>
    if env.allocHistOk then (some (freshHistory env pid), freshHistory env pid :: table)
    else (none, table)

/-- RemoveHistory: unlink the first node with the given pid. -/
def RemoveHistory (pid : Nat) : List ProcessHistory → List ProcessHistory
  | [] => []
  | h :: t => if h.pid = pid then t else h :: RemoveHistory pid t

/-- In-place mutation of the node returned by FindOrCreateHistory is
modelled by replacing the first node with that pid. -/
def replaceFirst (pid : Nat) (h2 : ProcessHistory) :
    List ProcessHistory → List ProcessHistory
  | [] => []
  | h :: t => if h.pid = pid then h2 :: t else h :: replaceFirst pid h2 t

/-- Write back the entry result of a check: none removes the node
(successful termination), some replaces it. -/
def applyEntryResult (pid : Nat) (r : Option ProcessHistory)
    (table : List ProcessHistory) : List ProcessHistory :=
  match r with
  | none => RemoveHistory pid table
  | some h2 => replaceFirst pid h2 table

/-- CleanupHistory: evict nodes not seen this scan and clear the seen
mark of the survivors. -/
def CleanupHistory : List ProcessHistory → List ProcessHistory
  | [] => []
  | h :: t => if h.seen then { h with seen := false } :: CleanupHistory t
              else CleanupHistory t

/-- The per-scan pass that clears every seen mark before enumeration
(ProcessSnapshot, before the Process32First loop). -/
def markAllUnseen (table : List ProcessHistory) : List ProcessHistory :=
  table.map (fun h => { h with seen := false })

-- -------------------- Per-process check routines --------------------

/-- A PROCESSENTRY32W as used by the scan: pid and executable name. -/
structure ProcEntry where
  pid : Nat
  szExeFile : WStr
  deriving DecidableEq, Repr

/-- CheckSystemProcess: alert-only path for allowlisted system
processes.  Returns the updated history table, cooldown cache and
emitted events; it never calls TryTerminateProcess. -/
def CheckSystemProcess (env : ProcEnv) (cfg : Config) (pe : ProcEntry)
    (hungList : List Nat) (table : List ProcessHistory)
    (cache : List BalloonCooldown) :
    List ProcessHistory × List BalloonCooldown × List Event :=
  if IsProcessHung pe.pid hungList then
    let b := ShouldShowBalloonForProcess env.now env.allocBalloonOk pe.szExeFile cache
    (table, b.2, (if b.1 then [Event.suspiciousBalloon] else []) ++ [Event.suspiciousLog])
  else if !env.openLimitedOk then (table, cache, [])
  else
    let f := FindOrCreateHistory env pe.pid table
    let r : ℚ × List ProcessHistory :=
      match f.1 with
      | some h =>
        let c := CalcCpuUsage true env.times env.nowPerf env.perfFreq h
        ((if c.1 < 0 then 0 else c.1), replaceFirst pe.pid c.2 f.2)
      | none => (0, f.2)
    let instCpu := r.1
    let table2 := r.2
    let memMB := match env.mem with | some m => m | none => 0
    let memValid := env.mem.isSome
    let avgCpu := CalcAverageCpuUsage true env.times env.nowSys
    let cpuValid := decide ((0 : ℚ) ≤ avgCpu)
    let suspicious :=
      if instCpu > (cfg.cpuThresholdPercent : ℚ) then true
      else if cpuValid ∧ avgCpu > (cfg.cpuThresholdPercent : ℚ) then true
      else if memValid ∧ memMB > cfg.memThresholdMb then true
      else false
    if suspicious then
      let b := ShouldShowBalloonForProcess env.now env.allocBalloonOk pe.szExeFile cache
      (table2, b.2, (if b.1 then [Event.suspiciousBalloon] else []) ++ [Event.suspiciousLog])
    else (table2, cache, [])

/-- CheckNormalProcess: evaluate-and-terminate path. -/
def CheckNormalProcess (env : ProcEnv) (cfg : Config) (pe : ProcEntry)
    (hungList : List Nat) (table : List ProcessHistory) :
    List ProcessHistory × List Event :=
  let f := FindOrCreateHistory env pe.pid table
  match f.1 with
  | none =>
    -- history allocation failed: hang check on local counters only;
    -- the RemoveHistory invoked after a successful termination is a
    -- no-op here because no node with this pid exists
    let r := CheckProcessHungAndTerminate env.termOutcome pe.pid hungList none
    (f.2, r.2)
  | some h =>
    if !env.openQueryOk then
      let r := CheckProcessHungAndTerminate env.termOutcome pe.pid hungList (some h)
      (applyEntryResult pe.pid r.1 f.2, r.2)
    else
      let r := CheckProcessResourcesAndTerminate env cfg pe.pid hungList h
      (applyEntryResult pe.pid r.1 f.2, r.2)

/-- CheckProcess: routing between the system-process path, the
user-configured exclusion skip and the normal path. -/
def CheckProcess (env : ProcEnv) (dirs : SysDirs) (selfPid : Nat)
    (cfg : Config) (pe : ProcEntry) (hungList : List Nat)
    (table : List ProcessHistory) (cache : List BalloonCooldown) :
    List ProcessHistory × List BalloonCooldown × List Event :=
  if pe.pid = selfPid then (table, cache, [])
  else
    let exeNameW := pe.szExeFile.take (MAX_PATH_LEN - 1)
    if IsBuiltInExcluded dirs exeNameW env.path then
      CheckSystemProcess env cfg pe hungList table cache
    else if IsProcessExcluded exeNameW cfg then (table, cache, [])
    else
      let r := CheckNormalProcess env cfg pe hungList table
      (r.1, cache, r.2)

-- -------------------- Scan orchestration --------------------

/-- The enumeration loop of ProcessSnapshot: CheckProcess on every
snapshot entry, threading history table and cooldown cache.  `envOf`
supplies each pid's external-call outcomes for this scan. -/
def runChecks (envOf : Nat → ProcEnv) (dirs : SysDirs) (selfPid : Nat)
    (cfg : Config) (hungList : List Nat) :
    List ProcEntry → List ProcessHistory × List BalloonCooldown →
    List ProcessHistory × List BalloonCooldown
  | [], st => st
  | pe :: rest, st =>
    let r := CheckProcess (envOf pe.pid) dirs selfPid cfg pe hungList st.1 st.2
    runChecks envOf dirs selfPid cfg hungList rest (r.1, r.2.1)

/-- One successful scan's effect on the history table: clear the seen
marks, check every enumerated process, then sweep the unseen. -/
def scanSweep (envOf : Nat → ProcEnv) (dirs : SysDirs) (selfPid : Nat)
    (cfg : Config) (hungList : List Nat) (entries : List ProcEntry)
    (table : List ProcessHistory) (cache : List BalloonCooldown) :
    List ProcessHistory :=
  CleanupHistory
    (runChecks envOf dirs selfPid cfg hungList entries (markAllUnseen table, cache)).1

-- -------------------- Snapshot failure backoff --------------------

/-- Result of one CLAMP macro expansion: the adjusted value, whether
the adjustment message was logged, and whether the clamped flag
(feeding the one-shot notice balloon) was set. -/
structure ClampResult where
  value : Nat
  logged : Bool
  clamped : Bool
  deriving DecidableEq, Repr

/-- The CLAMP macro of LoadConfig. -/
def CLAMP (v lo hi : Nat) : ClampResult :=
  let v1 := if v < lo then lo else v
  let c1 := decide (v < lo)
  let v2 := if v1 > hi then hi else v1
  let c2 := c1 || decide (v1 > hi)
  { value := v2, logged := decide (v2 ≠ v), clamped := c2 }

/-- The raw numeric settings read by GetPrivateProfileIntW. -/
structure RawConfig where
  monitorIntervalMs : Nat
  cpuThresholdPercent : Nat
  memThresholdMb : Nat
  hangTimeoutMs : Nat
  logMaxSizeBytes : Nat
  maxHungWindows : Nat
  deriving DecidableEq, Repr

/-- The numeric configuration fields subject to clamping. -/
inductive CfgField where
  | monitorIntervalMs
  | cpuThresholdPercent
  | memThresholdMb
  | hangTimeoutMs
  | logMaxSizeBytes
  | maxHungWindows
  deriving DecidableEq, Repr

def fieldMin : CfgField → Nat
  | .monitorIntervalMs => MIN_MONITOR_INTERVAL_MS
  | .cpuThresholdPercent => MIN_CPU_THRESHOLD
  | .memThresholdMb => MIN_MEM_THRESHOLD_MB
  | .hangTimeoutMs => MIN_HANG_TIMEOUT_MS
  | .logMaxSizeBytes => MIN_LOG_SIZE_BYTES
  | .maxHungWindows => MIN_MAX_HUNG_WINDOWS

def fieldMax : CfgField → Nat
  | .monitorIntervalMs => MAX_MONITOR_INTERVAL_MS
  | .cpuThresholdPercent => MAX_CPU_THRESHOLD
  | .memThresholdMb => MAX_MEM_THRESHOLD_MB
  | .hangTimeoutMs => MAX_HANG_TIMEOUT_MS
  | .logMaxSizeBytes => MAX_LOG_SIZE_BYTES
  | .maxHungWindows => MAX_MAX_HUNG_WINDOWS

def getRaw (r : RawConfig) : CfgField → Nat
  | .monitorIntervalMs => r.monitorIntervalMs
  | .cpuThresholdPercent => r.cpuThresholdPercent
  | .memThresholdMb => r.memThresholdMb
  | .hangTimeoutMs => r.hangTimeoutMs
  | .logMaxSizeBytes => r.logMaxSizeBytes
  | .maxHungWindows => r.maxHungWindows

/-- The six CLAMP invocations of LoadConfig: the clamped numeric
config together with the list of fields whose adjustment was logged. -/
def loadConfigNumeric (r : RawConfig) : RawConfig × List CfgField :=
  let f1 := CLAMP r.monitorIntervalMs MIN_MONITOR_INTERVAL_MS MAX_MONITOR_INTERVAL_MS
  let f2 := CLAMP r.cpuThresholdPercent MIN_CPU_THRESHOLD MAX_CPU_THRESHOLD
  let f3 := CLAMP r.memThresholdMb MIN_MEM_THRESHOLD_MB MAX_MEM_THRESHOLD_MB
  let f4 := CLAMP r.hangTimeoutMs MIN_HANG_TIMEOUT_MS MAX_HANG_TIMEOUT_MS
  let f5 := CLAMP r.logMaxSizeBytes MIN_LOG_SIZE_BYTES MAX_LOG_SIZE_BYTES
  let f6 := CLAMP r.maxHungWindows MIN_MAX_HUNG_WINDOWS MAX_MAX_HUNG_WINDOWS
  ({ monitorIntervalMs := f1.value, cpuThresholdPercent := f2.value,
     memThresholdMb := f3.value, hangTimeoutMs := f4.value,
     logMaxSizeBytes := f5.value, maxHungWindows := f6.value },
   (if f1.logged then [CfgField.monitorIntervalMs] else []) ++
   (if f2.logged then [CfgField.cpuThresholdPercent] else []) ++
   (if f3.logged then [CfgField.memThresholdMb] else []) ++
   (if f4.logged then [CfgField.hangTimeoutMs] else []) ++
   (if f5.logged then [CfgField.logMaxSizeBytes] else []) ++
   (if f6.logged then [CfgField.maxHungWindows] else []))

-- -------------------- Repeated-scan traces --------------------

/-- Successive scans of one process through the resource path while it
stays in the hung set (each scan's external outcomes given by one list
element).  Stops when the entry is removed by successful termination. -/
def resRun (cfg : Config) (pid : Nat) (hungList : List Nat) :
    List ProcEnv → ProcessHistory → Option ProcessHistory × List Event
  | [], h => (some h, [])
  | e :: rest, h =>
    match CheckProcessResourcesAndTerminate e cfg pid hungList h with
    | (none, evs) => (none, evs)
    | (some h2, evs) =>
      let r := resRun cfg pid hungList rest h2
      (r.1, evs ++ r.2)

/-- Successive scans of one process through the hang-only path (the
process handle could not be opened) while it stays in the hung set. -/
def hungRun (pid : Nat) (hungList : List Nat) :
    List TermOutcome → ProcessHistory → Option ProcessHistory × List Event
  | [], h => (some h, [])
  | o :: rest, h =>
    match CheckProcessHungAndTerminate o pid hungList (some h) with
    | (none, evs) => (none, evs)
    | (some h2, evs) =>
      let r := hungRun pid hungList rest h2
      (r.1, evs ++ r.2)

-- -------------------- Sample inputs for concrete evaluations --------------------

/-- A history entry with both retry counters at zero, used as a
concrete evaluation point. -/
def sampleHist : ProcessHistory :=
  ⟨7, 0, 100, 200, 50, 0, 0, false, false, true⟩

/-- An environment whose GetProcessTimes result coincides with the
sample entry's cached baseline (so the CPU delta is zero), with a
small working set and a failing TerminateProcess. -/
def sampleEnv : ProcEnv :=
  { path := [], openQueryOk := true, openLimitedOk := true, histOpenOk := true,
    times := some ⟨0, 100, 200⟩, perfAtCreate := 50, nowPerf := 60, perfFreq := 10,
    nowSys := 1000, mem := some 10, termOutcome := .termFail,
    allocHistOk := true, allocBalloonOk := true, now := 0 }

/-- The default configuration values. -/
def sampleCfg : Config :=
  { monitorIntervalMs := 5000, cpuThresholdPercent := 80, memThresholdMb := 500,
    hangTimeoutMs := 5000, logMaxSizeBytes := 1048576, maxHungWindows := 500,
    notifyOnTermination := false, excludeList := [], monitoringDefault := true }

-- -------------------- Helper lemmas --------------------

/-- CalcCpuUsage on an open handle with readable times, written out. -/
lemma calcCpu_true_some (ft : FileTimes) (np f : Int) (h : ProcessHistory) :
    CalcCpuUsage true (some ft) np f h =
      if cpuTimeDelta ft h = 0 then (0, h)
      else if ((np - h.perfTime : Int) : ℚ) / ((f : Int) : ℚ) ≤ 0 then (0, h)
      else (((cpuTimeDelta ft h : ℚ) / 10000) /
              (((np - h.perfTime : Int) : ℚ) / ((f : Int) : ℚ)) / 10,
            { h with ftKernel := ft.ftKernel, ftUser := ft.ftUser, perfTime := np }) :=
  rfl

-- -------------------- Claim theorems --------------------

/-- C5: CalcCpuUsage returns the -1 sentinel exactly on a null handle
or unreadable process times; on a readable process the result is never
negative, and it is 0 whenever the CPU-time delta is zero or the
wall-clock delta is zero or negative. -/
theorem claim5_calcCpuUsage (times : Option FileTimes) (nowPerf perfFreq : Int)
    (hist : ProcessHistory) (ft : FileTimes) :
    (CalcCpuUsage false times nowPerf perfFreq hist).1 = -1
  ∧ (CalcCpuUsage true none nowPerf perfFreq hist).1 = -1
  ∧ 0 ≤ (CalcCpuUsage true (some ft) nowPerf perfFreq hist).1
  ∧ (cpuTimeDelta ft hist = 0 →
       (CalcCpuUsage true (some ft) nowPerf perfFreq hist).1 = 0)
  ∧ (0 < perfFreq → nowPerf ≤ hist.perfTime →
       (CalcCpuUsage true (some ft) nowPerf perfFreq hist).1 = 0) := by
  refine ⟨rfl, rfl, ?_, ?_, ?_⟩
  · rw [calcCpu_true_some]
    split_ifs with hd hs
    · norm_num
    · norm_num
    · have hspos := lt_of_not_ge hs
      exact div_nonneg (div_nonneg (div_nonneg (by positivity) (by norm_num))
        hspos.le) (by norm_num)
  · intro hd
    rw [calcCpu_true_some, if_pos hd]
  · intro hf hle
    rw [calcCpu_true_some]
    split_ifs with hd hs
    · rfl
    · rfl
    · exfalso
      apply hs
      have hnum : ((nowPerf - hist.perfTime : Int) : ℚ) ≤ 0 := by
        have hint : (nowPerf - hist.perfTime : Int) ≤ 0 := by omega
        exact_mod_cast hint
      have hden : (0 : ℚ) ≤ ((perfFreq : Int) : ℚ) := by exact_mod_cast hf.le
      exact div_nonpos_iff.mpr (Or.inr ⟨hnum, hden⟩)

/-- C5 witness: a concrete readable process whose CPU-time delta is
zero yields 0. -/
theorem claim5_witness :
    (CalcCpuUsage true (some ⟨0, 100, 200⟩) 60 10 sampleHist).1 = 0 :=
  (claim5_calcCpuUsage (some ⟨0, 100, 200⟩) 60 10 sampleHist
    ⟨0, 100, 200⟩).2.2.2.1 (by decide)

lemma CLAMP_lt (v lo hi : Nat) (hv : v < lo) (hlohi : lo ≤ hi) :
    CLAMP v lo hi = ⟨lo, true, true⟩ := by
  unfold CLAMP
  simp only [if_pos hv, if_neg (show ¬lo > hi by omega), ClampResult.mk.injEq,
    decide_eq_true_eq, Bool.or_eq_true]
  exact ⟨trivial, by omega, Or.inl hv⟩

lemma CLAMP_gt (v lo hi : Nat) (hv : v > hi) (hlohi : lo ≤ hi) :
    CLAMP v lo hi = ⟨hi, true, true⟩ := by
  unfold CLAMP
  simp only [if_neg (show ¬v < lo by omega), if_pos hv, ClampResult.mk.injEq,
    decide_eq_true_eq, Bool.or_eq_true]
  exact ⟨trivial, by omega, Or.inr hv⟩

lemma CLAMP_in (v lo hi : Nat) (h1 : lo ≤ v) (h2 : v ≤ hi) :
    CLAMP v lo hi = ⟨v, false, false⟩ := by
  unfold CLAMP
  simp only [if_neg (show ¬v < lo by omega), if_neg (show ¬v > hi by omega)]
  simp
  exact ⟨h1, h2⟩

lemma mem_ite_single {α : Type} (a x : α) (c : Bool) :
    a ∈ (if c then [x] else []) ↔ c = true ∧ a = x := by
  cases c <;> simp

/-- C8: every numeric configuration field is clamped to its documented
range, never rejected: values below the minimum load as the minimum,
values above the maximum load as the maximum (in both cases the
adjustment is logged), and in-range values load unchanged with no log. -/
theorem claim8_configClamp (r : RawConfig) (f : CfgField) :
    (getRaw r f < fieldMin f →
       getRaw (loadConfigNumeric r).1 f = fieldMin f ∧ f ∈ (loadConfigNumeric r).2)
  ∧ (getRaw r f > fieldMax f →
       getRaw (loadConfigNumeric r).1 f = fieldMax f ∧ f ∈ (loadConfigNumeric r).2)
  ∧ (fieldMin f ≤ getRaw r f → getRaw r f ≤ fieldMax f →
       getRaw (loadConfigNumeric r).1 f = getRaw r f ∧ f ∉ (loadConfigNumeric r).2) := by
  cases f with
  | monitorIntervalMs =>
    refine ⟨fun hlt => ?_, fun hgt => ?_, fun hge hle => ?_⟩
    · simp only [getRaw, fieldMin] at hlt ⊢
      have hc := CLAMP_lt r.monitorIntervalMs MIN_MONITOR_INTERVAL_MS
        MAX_MONITOR_INTERVAL_MS hlt (by decide)
      simp [loadConfigNumeric, getRaw, hc, mem_ite_single]
    · simp only [getRaw, fieldMax] at hgt ⊢
      have hc := CLAMP_gt r.monitorIntervalMs MIN_MONITOR_INTERVAL_MS
        MAX_MONITOR_INTERVAL_MS hgt (by decide)
      simp [loadConfigNumeric, getRaw, hc, mem_ite_single]
    · simp only [getRaw, fieldMin, fieldMax] at hge hle ⊢
      have hc := CLAMP_in r.monitorIntervalMs MIN_MONITOR_INTERVAL_MS
        MAX_MONITOR_INTERVAL_MS hge hle
      simp [loadConfigNumeric, getRaw, hc, mem_ite_single]
  | cpuThresholdPercent =>
    refine ⟨fun hlt => ?_, fun hgt => ?_, fun hge hle => ?_⟩
    · simp only [getRaw, fieldMin] at hlt ⊢
      have hc := CLAMP_lt r.cpuThresholdPercent MIN_CPU_THRESHOLD
        MAX_CPU_THRESHOLD hlt (by decide)
      simp [loadConfigNumeric, getRaw, hc, mem_ite_single]
    · simp only [getRaw, fieldMax] at hgt ⊢
      have hc := CLAMP_gt r.cpuThresholdPercent MIN_CPU_THRESHOLD
        MAX_CPU_THRESHOLD hgt (by decide)
      simp [loadConfigNumeric, getRaw, hc, mem_ite_single]
    · simp only [getRaw, fieldMin, fieldMax] at hge hle ⊢
      have hc := CLAMP_in r.cpuThresholdPercent MIN_CPU_THRESHOLD
        MAX_CPU_THRESHOLD hge hle
      simp [loadConfigNumeric, getRaw, hc, mem_ite_single]
  | memThresholdMb =>
    refine ⟨fun hlt => ?_, fun hgt => ?_, fun hge hle => ?_⟩
    · simp only [getRaw, fieldMin] at hlt ⊢
      have hc := CLAMP_lt r.memThresholdMb MIN_MEM_THRESHOLD_MB
        MAX_MEM_THRESHOLD_MB hlt (by decide)
      simp [loadConfigNumeric, getRaw, hc, mem_ite_single]
    · simp only [getRaw, fieldMax] at hgt ⊢
      have hc := CLAMP_gt r.memThresholdMb MIN_MEM_THRESHOLD_MB
        MAX_MEM_THRESHOLD_MB hgt (by decide)
      simp [loadConfigNumeric, getRaw, hc, mem_ite_single]
    · simp only [getRaw, fieldMin, fieldMax] at hge hle ⊢
      have hc := CLAMP_in r.memThresholdMb MIN_MEM_THRESHOLD_MB
        MAX_MEM_THRESHOLD_MB hge hle
      simp [loadConfigNumeric, getRaw, hc, mem_ite_single]
  | hangTimeoutMs =>
    refine ⟨fun hlt => ?_, fun hgt => ?_, fun hge hle => ?_⟩
    · simp only [getRaw, fieldMin] at hlt ⊢
      have hc := CLAMP_lt r.hangTimeoutMs MIN_HANG_TIMEOUT_MS
        MAX_HANG_TIMEOUT_MS hlt (by decide)
      simp [loadConfigNumeric, getRaw, hc, mem_ite_single]
    · simp only [getRaw, fieldMax] at hgt ⊢
      have hc := CLAMP_gt r.hangTimeoutMs MIN_HANG_TIMEOUT_MS
        MAX_HANG_TIMEOUT_MS hgt (by decide)
      simp [loadConfigNumeric, getRaw, hc, mem_ite_single]
    · simp only [getRaw, fieldMin, fieldMax] at hge hle ⊢
      have hc := CLAMP_in r.hangTimeoutMs MIN_HANG_TIMEOUT_MS
        MAX_HANG_TIMEOUT_MS hge hle
      simp [loadConfigNumeric, getRaw, hc, mem_ite_single]
  | logMaxSizeBytes =>
    refine ⟨fun hlt => ?_, fun hgt => ?_, fun hge hle => ?_⟩
    · simp only [getRaw, fieldMin] at hlt ⊢
      have hc := CLAMP_lt r.logMaxSizeBytes MIN_LOG_SIZE_BYTES
        MAX_LOG_SIZE_BYTES hlt (by decide)
      simp [loadConfigNumeric, getRaw, hc, mem_ite_single]
    · simp only [getRaw, fieldMax] at hgt ⊢
      have hc := CLAMP_gt r.logMaxSizeBytes MIN_LOG_SIZE_BYTES
        MAX_LOG_SIZE_BYTES hgt (by decide)
      simp [loadConfigNumeric, getRaw, hc, mem_ite_single]
    · simp only [getRaw, fieldMin, fieldMax] at hge hle ⊢
      have hc := CLAMP_in r.logMaxSizeBytes MIN_LOG_SIZE_BYTES
        MAX_LOG_SIZE_BYTES hge hle
      simp [loadConfigNumeric, getRaw, hc, mem_ite_single]
  | maxHungWindows =>
    refine ⟨fun hlt => ?_, fun hgt => ?_, fun hge hle => ?_⟩
    · simp only [getRaw, fieldMin] at hlt ⊢
      have hc := CLAMP_lt r.maxHungWindows MIN_MAX_HUNG_WINDOWS
        MAX_MAX_HUNG_WINDOWS hlt (by decide)
      simp [loadConfigNumeric, getRaw, hc, mem_ite_single]
    · simp only [getRaw, fieldMax] at hgt ⊢
      have hc := CLAMP_gt r.maxHungWindows MIN_MAX_HUNG_WINDOWS
        MAX_MAX_HUNG_WINDOWS hgt (by decide)
      simp [loadConfigNumeric, getRaw, hc, mem_ite_single]
    · simp only [getRaw, fieldMin, fieldMax] at hge hle ⊢
      have hc := CLAMP_in r.maxHungWindows MIN_MAX_HUNG_WINDOWS
        MAX_MAX_HUNG_WINDOWS hge hle
      simp [loadConfigNumeric, getRaw, hc, mem_ite_single]

/-- C8 witness: an interval below the minimum loads as the minimum and
logs the adjustment. -/
theorem claim8_witness :
    getRaw (loadConfigNumeric ⟨100, 50, 600, 5000, 4096, 500⟩).1
        CfgField.monitorIntervalMs = fieldMin CfgField.monitorIntervalMs
  ∧ CfgField.monitorIntervalMs ∈ (loadConfigNumeric ⟨100, 50, 600, 5000, 4096, 500⟩).2 :=
  (claim8_configClamp ⟨100, 50, 600, 5000, 4096, 500⟩ CfgField.monitorIntervalMs).1
    (by decide)

end ProcessMonitor

namespace ProcessMonitor

lemma wcsicmpEq_self (a : WStr) : wcsicmpEq a a = true := by
  simp [wcsicmpEq]

lemma cooldownLookup_none (now : Nat) (name : WStr) :
    ∀ l : List BalloonCooldown,
      (∀ c ∈ l, wcsicmpEq c.processName name = false) →
      cooldownLookup now name l = none := by
  intro l
  induction l with
  | nil => intro _; rfl
  | cons c rest ih =>
    intro h
    unfold cooldownLookup
    rw [if_neg (by simp [h c (by simp)])]
    rw [ih (fun x hx => h x (by simp [hx]))]

/-- C7: for a fixed process name with no cooldown record, the first
notification request allows and inserts a record; a second request
within the cooldown window is denied, while a request at or past the
window allows again and refreshes the stored timestamp. -/
theorem claim7_notificationCooldown (name : WStr) (cache : List BalloonCooldown)
    (now1 now2 : Nat)
    (hname : name ≠ [])
    (hlen : name.length ≤ MAX_PATH_LEN - 1)
    (habsent : ∀ c ∈ cache, wcsicmpEq c.processName name = false) :
    ShouldShowBalloonForProcess now1 true name cache = (true, ⟨name, now1⟩ :: cache)
  ∧ (u64sub now2 now1 < SUSPICIOUS_BALLOON_COOLDOWN_MS →
      ShouldShowBalloonForProcess now2 true name (⟨name, now1⟩ :: cache)
        = (false, ⟨name, now1⟩ :: cache))
  ∧ (SUSPICIOUS_BALLOON_COOLDOWN_MS ≤ u64sub now2 now1 →
      ShouldShowBalloonForProcess now2 true name (⟨name, now1⟩ :: cache)
        = (true, ⟨name, now2⟩ :: cache)) := by
  have htake : name.take (MAX_PATH_LEN - 1) = name := List.take_of_length_le hlen
  refine ⟨?_, fun hin => ?_, fun hout => ?_⟩
  · unfold ShouldShowBalloonForProcess
    rw [if_neg hname, cooldownLookup_none now1 name cache habsent]
    simp [htake]
  · unfold ShouldShowBalloonForProcess
    rw [if_neg hname]
    unfold cooldownLookup
    rw [if_pos (by simp [wcsicmpEq_self])]
    rw [if_pos hin]
  · unfold ShouldShowBalloonForProcess
    rw [if_neg hname]
    unfold cooldownLookup
    rw [if_pos (by simp [wcsicmpEq_self])]
    rw [if_neg (not_lt.mpr hout)]

/-- C7 witness: a concrete name sees allow, then deny inside the
window, then allow past the window. -/
theorem claim7_witness :
    ShouldShowBalloonForProcess 0 true "a.exe".toList []
      = (true, [⟨"a.exe".toList, 0⟩]) :=
  (claim7_notificationCooldown "a.exe".toList [] 0 100 (by decide) (by decide)
    (by simp)).1

/-- C10: when allocating the cooldown record fails, a first-occurrence
request still allows but inserts nothing, so a later request for the
same name (at any time, in particular within the window) is allowed
again. -/
theorem claim10_cooldownAllocFailure (name : WStr) (cache : List BalloonCooldown)
    (now1 now2 : Nat)
    (hname : name ≠ [])
    (habsent : ∀ c ∈ cache, wcsicmpEq c.processName name = false) :
    ShouldShowBalloonForProcess now1 false name cache = (true, cache)
  ∧ ShouldShowBalloonForProcess now2 false name cache = (true, cache) := by
  constructor <;>
    (unfold ShouldShowBalloonForProcess
     rw [if_neg hname, cooldownLookup_none _ name cache habsent]
     rfl)

/-- C10 witness: allocation failure at a concrete name allows twice
with no record inserted. -/
theorem claim10_witness :
    ShouldShowBalloonForProcess 0 false "a.exe".toList [] = (true, [])
  ∧ ShouldShowBalloonForProcess 100 false "a.exe".toList [] = (true, []) :=
  claim10_cooldownAllocFailure "a.exe".toList [] 0 100 (by decide) (by simp)

end ProcessMonitor

namespace ProcessMonitor

/-- Trusted system directory prefixes for concrete evaluations. -/
def sampleDirs : SysDirs :=
  ⟨"C:\\Windows\\System32\\".toList, "C:\\Windows\\SysWOW64\\".toList,
   "C:\\Windows\\System32\\drivers\\".toList⟩

/-- A snapshot entry naming an allowlisted system process. -/
def samplePe : ProcEntry := ⟨9, "csrss.exe".toList⟩

/-- C1: a process routed to the system-process path (allowlisted name
and trusted path) is never terminated under any configuration: every
event the check emits is a suspicious log entry or a cooldown-gated
suspicious balloon, so in particular no termination is ever attempted. -/
theorem claim1_systemProcessNeverTerminated (env : ProcEnv) (dirs : SysDirs)
    (selfPid : Nat) (cfg : Config) (pe : ProcEntry) (hungList : List Nat)
    (table : List ProcessHistory) (cache : List BalloonCooldown)
    (hroute : IsBuiltInExcluded dirs (pe.szExeFile.take (MAX_PATH_LEN - 1))
                env.path = true) :
    ((CheckProcess env dirs selfPid cfg pe hungList table cache).2.2).all
      (fun e => e == Event.suspiciousLog || e == Event.suspiciousBalloon) = true := by
  unfold CheckProcess
  split
  · rfl
  · simp only [hroute, if_true]
    unfold CheckSystemProcess
    dsimp only
    repeat' split
    all_goals rfl

/-- C1 witness: a concrete allowlisted process with an unresolvable
path routes to the system path and emits only alert events. -/
theorem claim1_witness :
    ((CheckProcess sampleEnv sampleDirs 0 sampleCfg samplePe [] [] []).2.2).all
      (fun e => e == Event.suspiciousLog || e == Event.suspiciousBalloon) = true :=
  claim1_systemProcessNeverTerminated sampleEnv sampleDirs 0 sampleCfg samplePe
    [] [] [] (by decide)

end ProcessMonitor

namespace ProcessMonitor

lemma CalcCpuUsage_entry (handleOk : Bool) (t : Option FileTimes) (np f : Int)
    (h : ProcessHistory) :
    ((CalcCpuUsage handleOk t np f h).2).pid = h.pid
  ∧ ((CalcCpuUsage handleOk t np f h).2).terminateAttempts = h.terminateAttempts
  ∧ ((CalcCpuUsage handleOk t np f h).2).terminateAttemptsHung = h.terminateAttemptsHung
  ∧ ((CalcCpuUsage handleOk t np f h).2).terminateLogSent = h.terminateLogSent
  ∧ ((CalcCpuUsage handleOk t np f h).2).terminateLogSentHung = h.terminateLogSentHung
  ∧ ((CalcCpuUsage handleOk t np f h).2).seen = h.seen := by
  unfold CalcCpuUsage
  dsimp only
  repeat' split
  all_goals exact ⟨rfl, rfl, rfl, rfl, rfl, rfl⟩

lemma MeasureProcessResources_entry (t : Option FileTimes) (np f : Int)
    (m : Option Nat) (h : ProcessHistory) :
    ((MeasureProcessResources t np f m h).2.2.2).pid = h.pid
  ∧ ((MeasureProcessResources t np f m h).2.2.2).terminateAttempts = h.terminateAttempts
  ∧ ((MeasureProcessResources t np f m h).2.2.2).terminateAttemptsHung = h.terminateAttemptsHung
  ∧ ((MeasureProcessResources t np f m h).2.2.2).terminateLogSent = h.terminateLogSent
  ∧ ((MeasureProcessResources t np f m h).2.2.2).terminateLogSentHung = h.terminateLogSentHung
  ∧ ((MeasureProcessResources t np f m h).2.2.2).seen = h.seen := by
  unfold MeasureProcessResources
  cases m <;> exact CalcCpuUsage_entry true t np f h

lemma resCheck_entry (env : ProcEnv) (cfg : Config) (pid : Nat)
    (hungList : List Nat) (h h2 : ProcessHistory)
    (hh2 : (CheckProcessResourcesAndTerminate env cfg pid hungList h).1 = some h2) :
    h2.pid = h.pid
  ∧ h2.terminateAttemptsHung = h.terminateAttemptsHung
  ∧ h2.terminateLogSentHung = h.terminateLogSentHung
  ∧ h2.seen = h.seen := by
  obtain ⟨hm1, hm2, hm3, hm4, hm5, hm6⟩ :=
    MeasureProcessResources_entry env.times env.nowPerf env.perfFreq env.mem h
  unfold CheckProcessResourcesAndTerminate at hh2
  dsimp only at hh2
  repeat' split at hh2
  all_goals try simp at hh2
  all_goals (subst hh2; exact ⟨hm1, hm3, hm5, hm6⟩)

lemma hungCheck_entry (o : TermOutcome) (pid : Nat) (hungList : List Nat)
    (h h2 : ProcessHistory)
    (hh2 : (CheckProcessHungAndTerminate o pid hungList (some h)).1 = some h2) :
    h2.pid = h.pid
  ∧ h2.terminateAttempts = h.terminateAttempts
  ∧ h2.terminateLogSent = h.terminateLogSent
  ∧ h2.seen = h.seen := by
  unfold CheckProcessHungAndTerminate at hh2
  dsimp only at hh2
  repeat' split at hh2
  all_goals try simp at hh2
  all_goals (subst hh2; exact ⟨rfl, rfl, rfl, rfl⟩)

/-- C2 counterexample: a process that is hung but within resource
limits, evaluated with an open handle, triggers a termination attempt
whose failure increments the resource-breach counter, not the
hang-breach counter. -/
theorem claim2_counterexample :
    CheckProcessResourcesAndTerminate sampleEnv sampleCfg 7 [7] sampleHist
      = (some { sampleHist with terminateAttempts := 1 },
         [Event.breachLog, Event.termAttempt, Event.termFailLog])
  ∧ IsProcessHung 7 [7] = true
  ∧ FormatReason 0 sampleCfg.cpuThresholdPercent true 10 sampleCfg.memThresholdMb true
      = some Reason.windowHung
  ∧ sampleHist.terminateAttempts = 0
  ∧ sampleHist.terminateAttemptsHung = 0
  ∧ ({ sampleHist with terminateAttempts := 1 }).terminateAttemptsHung = 0 := by
  decide

/-- C2 (amended): the two counters are path-independent — the resource
evaluation path never modifies the hang-breach counter or its one-shot
flag, and the hang-only evaluation path never modifies the
resource-breach counter or its flag.  (A hang breach detected on the
resource path counts against the resource counter.) -/
theorem claim2_independentCounters (env : ProcEnv) (cfg : Config) (pid : Nat)
    (hungList : List Nat) (h : ProcessHistory) :
    (∀ h2, (CheckProcessResourcesAndTerminate env cfg pid hungList h).1 = some h2 →
        h2.terminateAttemptsHung = h.terminateAttemptsHung
      ∧ h2.terminateLogSentHung = h.terminateLogSentHung)
  ∧ (∀ o h2, (CheckProcessHungAndTerminate o pid hungList (some h)).1 = some h2 →
        h2.terminateAttempts = h.terminateAttempts
      ∧ h2.terminateLogSent = h.terminateLogSent) := by
  constructor
  · intro h2 hh2
    have hp := resCheck_entry env cfg pid hungList h h2 hh2
    exact ⟨hp.2.1, hp.2.2.1⟩
  · intro o h2 hh2
    have hp := hungCheck_entry o pid hungList h h2 hh2
    exact ⟨hp.2.1, hp.2.2.1⟩

/-- C2 witness: the resource-path evaluation of the concrete hung
process left the hang-breach counter and flag untouched. -/
theorem claim2_witness :
    ({ sampleHist with terminateAttempts := 1 }).terminateAttemptsHung
        = sampleHist.terminateAttemptsHung
  ∧ ({ sampleHist with terminateAttempts := 1 }).terminateLogSentHung
        = sampleHist.terminateLogSentHung :=
  (claim2_independentCounters sampleEnv sampleCfg 7 [7] sampleHist).1
    { sampleHist with terminateAttempts := 1 } (by decide)

/-- C3 counterexample: an entry with a nonzero hang-breach counter,
evaluated with an open handle and no breach, keeps that counter — only
the resource-breach counter and flag are reset, so the two counters
are not both zero afterwards. -/
theorem claim3_counterexample :
    CheckProcessResourcesAndTerminate sampleEnv sampleCfg 7 []
        { sampleHist with terminateAttemptsHung := 2 }
      = (some { sampleHist with terminateAttemptsHung := 2 }, [])
  ∧ IsProcessHung 7 [] = false
  ∧ FormatReason 0 sampleCfg.cpuThresholdPercent true 10 sampleCfg.memThresholdMb false
      = none
  ∧ ({ sampleHist with terminateAttemptsHung := 2 }).terminateAttemptsHung ≠ 0 := by
  decide

/-- C3 (amended): when no breach reason applies, the evaluation resets
the resource-breach counter and its one-shot flag to zero and emits no
event; the hang-breach counter and flag keep their previous values
(they are reset only on the hang-only path when the process is not
hung). -/
theorem claim3_recoveryReset (env : ProcEnv) (cfg : Config) (pid : Nat)
    (hungList : List Nat) (h : ProcessHistory)
    (hnone : FormatReason
        (MeasureProcessResources env.times env.nowPerf env.perfFreq env.mem h).1
        cfg.cpuThresholdPercent
        (MeasureProcessResources env.times env.nowPerf env.perfFreq env.mem h).2.2.1
        (MeasureProcessResources env.times env.nowPerf env.perfFreq env.mem h).2.1
        cfg.memThresholdMb (IsProcessHung pid hungList) = none) :
    CheckProcessResourcesAndTerminate env cfg pid hungList h
      = (some { (MeasureProcessResources env.times env.nowPerf env.perfFreq env.mem h).2.2.2 with
                terminateAttempts := 0, terminateLogSent := false }, [])
  ∧ ({ (MeasureProcessResources env.times env.nowPerf env.perfFreq env.mem h).2.2.2 with
       terminateAttempts := 0, terminateLogSent := false }).terminateAttemptsHung
      = h.terminateAttemptsHung
  ∧ ({ (MeasureProcessResources env.times env.nowPerf env.perfFreq env.mem h).2.2.2 with
       terminateAttempts := 0, terminateLogSent := false }).terminateLogSentHung
      = h.terminateLogSentHung := by
  have hm := MeasureProcessResources_entry env.times env.nowPerf env.perfFreq env.mem h
  refine ⟨?_, ?_, ?_⟩
  · unfold CheckProcessResourcesAndTerminate
    dsimp only
    rw [hnone]
  · exact hm.2.2.1
  · exact hm.2.2.2.2.1

/-- C3 witness: the concrete no-breach evaluation resets the resource
counter and flag while keeping the hang counter at 2. -/
theorem claim3_witness :
    CheckProcessResourcesAndTerminate sampleEnv sampleCfg 7 []
        { sampleHist with terminateAttemptsHung := 2 }
      = (some { (MeasureProcessResources sampleEnv.times sampleEnv.nowPerf
                   sampleEnv.perfFreq sampleEnv.mem
                   { sampleHist with terminateAttemptsHung := 2 }).2.2.2 with
                terminateAttempts := 0, terminateLogSent := false }, []) :=
  (claim3_recoveryReset sampleEnv sampleCfg 7 []
    { sampleHist with terminateAttemptsHung := 2 } (by decide)).1

end ProcessMonitor

namespace ProcessMonitor

lemma formatReason_of_hung (cpu : ℚ) (ct : Nat) (mv : Bool) (m mt : Nat) :
    ∃ r, FormatReason cpu ct mv m mt true = some r := by
  unfold FormatReason
  split_ifs with h1 h2 h3
  · exact ⟨_, rfl⟩
  · exact ⟨_, rfl⟩
  · exact ⟨_, rfl⟩
  · exact absurd rfl h3

lemma resStep_exhausted (env : ProcEnv) (cfg : Config) (pid : Nat)
    (hungList : List Nat) (h : ProcessHistory)
    (hhung : IsProcessHung pid hungList = true)
    (hge : h.terminateAttempts ≥ TERMINATE_RETRY_LIMIT) :
    ∃ h2, CheckProcessResourcesAndTerminate env cfg pid hungList h
        = (some h2, if h.terminateLogSent then [] else [Event.exhaustedLog])
      ∧ h2.terminateAttempts = h.terminateAttempts
      ∧ h2.terminateLogSent = true := by
  obtain ⟨hm1, hm2, hm3, hm4, hm5, hm6⟩ :=
    MeasureProcessResources_entry env.times env.nowPerf env.perfFreq env.mem h
  obtain ⟨r, hr⟩ := formatReason_of_hung
    (MeasureProcessResources env.times env.nowPerf env.perfFreq env.mem h).1
    cfg.cpuThresholdPercent
    (MeasureProcessResources env.times env.nowPerf env.perfFreq env.mem h).2.2.1
    (MeasureProcessResources env.times env.nowPerf env.perfFreq env.mem h).2.1
    cfg.memThresholdMb
  unfold CheckProcessResourcesAndTerminate
  dsimp only
  rw [hhung, hr]
  rw [if_pos (show (MeasureProcessResources env.times env.nowPerf env.perfFreq
      env.mem h).2.2.2.terminateAttempts ≥ TERMINATE_RETRY_LIMIT by
    rw [hm2]; exact hge)]
  cases hb : h.terminateLogSent with
  | true =>
    rw [if_pos (show (MeasureProcessResources env.times env.nowPerf env.perfFreq
        env.mem h).2.2.2.terminateLogSent = true by rw [hm4]; exact hb)]
    exact ⟨_, rfl, hm2, by rw [hm4]; exact hb⟩
  | false =>
    rw [if_neg (show ¬(MeasureProcessResources env.times env.nowPerf env.perfFreq
        env.mem h).2.2.2.terminateLogSent = true by rw [hm4, hb]; simp)]
    exact ⟨_, rfl, hm2, rfl⟩

lemma hungStep_exhausted (o : TermOutcome) (pid : Nat) (hungList : List Nat)
    (h : ProcessHistory)
    (hhung : IsProcessHung pid hungList = true)
    (hge : h.terminateAttemptsHung ≥ TERMINATE_RETRY_LIMIT) :
    ∃ h2, CheckProcessHungAndTerminate o pid hungList (some h)
        = (some h2, if h.terminateLogSentHung then [] else [Event.exhaustedLog])
      ∧ h2.terminateAttemptsHung = h.terminateAttemptsHung
      ∧ h2.terminateLogSentHung = true := by
  unfold CheckProcessHungAndTerminate
  dsimp only
  rw [hhung]
  rw [if_neg (by simp)]
  rw [if_pos hge]
  cases hb : h.terminateLogSentHung with
  | true => exact ⟨h, rfl, rfl, hb⟩
  | false => exact ⟨_, rfl, rfl, rfl⟩

lemma resRun_exhausted (cfg : Config) (pid : Nat) (hungList : List Nat)
    (hhung : IsProcessHung pid hungList = true) :
    ∀ (envs : List ProcEnv) (h : ProcessHistory),
      h.terminateAttempts ≥ TERMINATE_RETRY_LIMIT →
      (resRun cfg pid hungList envs h).2.count Event.termAttempt = 0
    ∧ (resRun cfg pid hungList envs h).2.count Event.exhaustedLog
        = (if h.terminateLogSent then 0 else min 1 envs.length)
    ∧ ∀ h2, (resRun cfg pid hungList envs h).1 = some h2 →
        h2.terminateAttempts = h.terminateAttempts := by
  intro envs
  induction envs with
  | nil =>
    intro h hge
    refine ⟨rfl, ?_, fun h2 hh2 => ?_⟩
    · cases hb : h.terminateLogSent <;> simp [resRun, hb]
    · simp only [resRun, Option.some.injEq] at hh2
      rw [← hh2]
  | cons e rest ih =>
    intro h hge
    obtain ⟨h2, hstep, ha, hl⟩ := resStep_exhausted e cfg pid hungList h hhung hge
    have hge2 : h2.terminateAttempts ≥ TERMINATE_RETRY_LIMIT := by
      rw [ha]; exact hge
    obtain ⟨ih1, ih2, ih3⟩ := ih h2 hge2
    unfold resRun
    rw [hstep]
    dsimp only
    refine ⟨?_, ?_, fun h3 hh3 => ?_⟩
    · rw [List.count_append, ih1]
      cases hb : h.terminateLogSent <;> simp [hb]
    · rw [List.count_append, ih2, hl]
      cases hb : h.terminateLogSent <;> simp [hb]
    · exact (ih3 h3 hh3).trans ha

lemma hungRun_exhausted (pid : Nat) (hungList : List Nat)
    (hhung : IsProcessHung pid hungList = true) :
    ∀ (outs : List TermOutcome) (h : ProcessHistory),
      h.terminateAttemptsHung ≥ TERMINATE_RETRY_LIMIT →
      (hungRun pid hungList outs h).2.count Event.termAttempt = 0
    ∧ (hungRun pid hungList outs h).2.count Event.exhaustedLog
        = (if h.terminateLogSentHung then 0 else min 1 outs.length)
    ∧ ∀ h2, (hungRun pid hungList outs h).1 = some h2 →
        h2.terminateAttemptsHung = h.terminateAttemptsHung := by
  intro outs
  induction outs with
  | nil =>
    intro h hge
    refine ⟨rfl, ?_, fun h2 hh2 => ?_⟩
    · cases hb : h.terminateLogSentHung <;> simp [hungRun, hb]
    · simp only [hungRun, Option.some.injEq] at hh2
      rw [← hh2]
  | cons o rest ih =>
    intro h hge
    obtain ⟨h2, hstep, ha, hl⟩ := hungStep_exhausted o pid hungList h hhung hge
    have hge2 : h2.terminateAttemptsHung ≥ TERMINATE_RETRY_LIMIT := by
      rw [ha]; exact hge
    obtain ⟨ih1, ih2, ih3⟩ := ih h2 hge2
    unfold hungRun
    rw [hstep]
    dsimp only
    refine ⟨?_, ?_, fun h3 hh3 => ?_⟩
    · rw [List.count_append, ih1]
      cases hb : h.terminateLogSentHung <;> simp [hb]
    · rw [List.count_append, ih2, hl]
      cases hb : h.terminateLogSentHung <;> simp [hb]
    · exact (ih3 h3 hh3).trans ha

/-- C4: once the relevant retry counter has reached
TERMINATE_RETRY_LIMIT, no termination attempt is made in any later
scan in which the breach persists (the counter stays put, on both the
resource path and the hang-only path), and over any such run of scans
the exhaustion message is emitted exactly once (zero more times when
it had already fired). -/
theorem claim4_retryCeiling (cfg : Config) (pid : Nat) (hungList : List Nat)
    (envs : List ProcEnv) (outs : List TermOutcome) (h hh : ProcessHistory)
    (hhung : IsProcessHung pid hungList = true)
    (hres : h.terminateAttempts ≥ TERMINATE_RETRY_LIMIT)
    (hhng : hh.terminateAttemptsHung ≥ TERMINATE_RETRY_LIMIT) :
    (resRun cfg pid hungList envs h).2.count Event.termAttempt = 0
  ∧ (resRun cfg pid hungList envs h).2.count Event.exhaustedLog
      = (if h.terminateLogSent then 0 else min 1 envs.length)
  ∧ (∀ h2, (resRun cfg pid hungList envs h).1 = some h2 →
      h2.terminateAttempts = h.terminateAttempts)
  ∧ (hungRun pid hungList outs hh).2.count Event.termAttempt = 0
  ∧ (hungRun pid hungList outs hh).2.count Event.exhaustedLog
      = (if hh.terminateLogSentHung then 0 else min 1 outs.length)
  ∧ (∀ h2, (hungRun pid hungList outs hh).1 = some h2 →
      h2.terminateAttemptsHung = hh.terminateAttemptsHung) := by
  obtain ⟨a1, a2, a3⟩ := resRun_exhausted cfg pid hungList hhung envs h hres
  obtain ⟨b1, b2, b3⟩ := hungRun_exhausted pid hungList hhung outs hh hhng
  exact ⟨a1, a2, a3, b1, b2, b3⟩

/-- C4 witness: a concrete exhausted entry sees no attempt over a
two-scan hung run and exactly one exhaustion message. -/
theorem claim4_witness :
    (resRun sampleCfg 7 [7] [sampleEnv, sampleEnv]
        { sampleHist with terminateAttempts := 5 }).2.count Event.termAttempt = 0 :=
  (claim4_retryCeiling sampleCfg 7 [7] [sampleEnv, sampleEnv] []
    { sampleHist with terminateAttempts := 5 }
    { sampleHist with terminateAttemptsHung := 5 }
    (by decide) (by decide) (by decide)).1

end ProcessMonitor

namespace ProcessMonitor

/-- No entry for pid p is marked seen. -/
def noSeen (p : Nat) (l : List ProcessHistory) : Prop :=
  ∀ x ∈ l, x.pid = p → x.seen = false

lemma noSeen_markAllUnseen (p : Nat) (l : List ProcessHistory) :
    noSeen p (markAllUnseen l) := by
  intro x hx
  simp only [markAllUnseen, List.mem_map] at hx
  obtain ⟨y, _, rfl⟩ := hx
  intro _
  rfl

lemma noSeen_markSeenFirst (p q : Nat) (hqp : q ≠ p) :
    ∀ l : List ProcessHistory, noSeen p l → noSeen p (markSeenFirst q l) := by
  intro l
  induction l with
  | nil => intro h; exact h
  | cons c t ih =>
    intro hl x hx
    unfold markSeenFirst at hx
    split at hx
    · rcases List.mem_cons.mp hx with hx | hx
      · subst hx
        intro hpid
        exfalso
        exact hqp (by simp_all)
      · exact hl x (List.mem_cons_of_mem _ hx)
    · rcases List.mem_cons.mp hx with hx | hx
      · subst hx
        exact hl x (List.mem_cons_self _ _)
      · exact ih (fun y hy => hl y (List.mem_cons_of_mem _ hy)) x hx

lemma mem_RemoveHistory (q : Nat) :
    ∀ (l : List ProcessHistory) (x : ProcessHistory),
      x ∈ RemoveHistory q l → x ∈ l := by
  intro l
  induction l with
  | nil => intro x hx; exact absurd hx (List.not_mem_nil x)
  | cons c t ih =>
    intro x hx
    unfold RemoveHistory at hx
    split at hx
    · exact List.mem_cons_of_mem _ hx
    · rcases List.mem_cons.mp hx with hx | hx
      · exact hx ▸ List.mem_cons_self _ _
      · exact List.mem_cons_of_mem _ (ih x hx)

lemma noSeen_RemoveHistory (p q : Nat) (l : List ProcessHistory)
    (hl : noSeen p l) : noSeen p (RemoveHistory q l) :=
  fun x hx => hl x (mem_RemoveHistory q l x hx)

lemma noSeen_replaceFirst (p q : Nat) (h2 : ProcessHistory) (hp : h2.pid ≠ p) :
    ∀ l : List ProcessHistory, noSeen p l → noSeen p (replaceFirst q h2 l) := by
  intro l
  induction l with
  | nil => intro h; exact h
  | cons c t ih =>
    intro hl x hx
    unfold replaceFirst at hx
    split at hx
    · rcases List.mem_cons.mp hx with hx | hx
      · subst hx
        intro hpid
        exact absurd hpid hp
      · exact hl x (List.mem_cons_of_mem _ hx)
    · rcases List.mem_cons.mp hx with hx | hx
      · subst hx
        exact hl x (List.mem_cons_self _ _)
      · exact ih (fun y hy => hl y (List.mem_cons_of_mem _ hy)) x hx

lemma findHistFirst_pid (q : Nat) :
    ∀ (l : List ProcessHistory) (h : ProcessHistory),
      findHistFirst q l = some h → h.pid = q := by
  intro l
  induction l with
  | nil => intro h hx; exact absurd hx (by simp [findHistFirst])
  | cons c t ih =>
    intro h hx
    unfold findHistFirst at hx
    split at hx
    · cases hx
      assumption
    · exact ih h hx

lemma findHistFirst_none (p : Nat) :
    ∀ l : List ProcessHistory, (∀ x ∈ l, x.pid ≠ p) →
      findHistFirst p l = none := by
  intro l
  induction l with
  | nil => intro _; rfl
  | cons c t ih =>
    intro hl
    unfold findHistFirst
    rw [if_neg (hl c (by simp))]
    exact ih (fun y hy => hl y (by simp [hy]))

lemma freshHistory_pid (env : ProcEnv) (q : Nat) : (freshHistory env q).pid = q := by
  unfold freshHistory
  dsimp only
  repeat' split
  all_goals rfl

lemma FindOrCreateHistory_entry_pid (env : ProcEnv) (q : Nat)
    (l : List ProcessHistory) (h : ProcessHistory)
    (hf : (FindOrCreateHistory env q l).1 = some h) : h.pid = q := by
  unfold FindOrCreateHistory at hf
  split at hf
  next found hfound =>
    simp only [Option.some.injEq] at hf
    rw [← hf]
    exact findHistFirst_pid q l found hfound
  next =>
    split at hf
    · simp only [Option.some.injEq] at hf
      rw [← hf]
      exact freshHistory_pid env q
    · exact absurd hf (by simp)

lemma noSeen_FindOrCreateHistory (p : Nat) (env : ProcEnv) (q : Nat) (hqp : q ≠ p)
    (l : List ProcessHistory) (hl : noSeen p l) :
    noSeen p (FindOrCreateHistory env q l).2 := by
  unfold FindOrCreateHistory
  split
  · exact noSeen_markSeenFirst p q hqp l hl
  · split
    · intro x hx
      rcases List.mem_cons.mp hx with hx | hx
      · subst hx
        intro hpid
        exact absurd (freshHistory_pid env q ▸ hpid) hqp
      · exact hl x hx
    · exact hl

end ProcessMonitor

namespace ProcessMonitor

lemma noSeen_CheckNormalProcess (p : Nat) (env : ProcEnv) (cfg : Config)
    (pe : ProcEntry) (hungList : List Nat) (hqp : pe.pid ≠ p)
    (l : List ProcessHistory) (hl : noSeen p l) :
    noSeen p (CheckNormalProcess env cfg pe hungList l).1 := by
  have hf2 : noSeen p (FindOrCreateHistory env pe.pid l).2 :=
    noSeen_FindOrCreateHistory p env pe.pid hqp l hl
  unfold CheckNormalProcess
  dsimp only
  rcases hf : (FindOrCreateHistory env pe.pid l).1 with _ | h
  · simp only [hf]
    exact hf2
  · have hpid : h.pid = pe.pid := FindOrCreateHistory_entry_pid env pe.pid l h hf
    simp only [hf]
    split
    · rcases hr : (CheckProcessHungAndTerminate env.termOutcome pe.pid hungList
          (some h)).1 with _ | h2
      · simp only [hr, applyEntryResult]
        exact noSeen_RemoveHistory p pe.pid _ hf2
      · simp only [hr, applyEntryResult]
        have hp2 : h2.pid ≠ p := by
          rw [(hungCheck_entry env.termOutcome pe.pid hungList h h2 hr).1, hpid]
          exact hqp
        exact noSeen_replaceFirst p pe.pid h2 hp2 _ hf2
    · rcases hr : (CheckProcessResourcesAndTerminate env cfg pe.pid hungList h).1
          with _ | h2
      · simp only [hr, applyEntryResult]
        exact noSeen_RemoveHistory p pe.pid _ hf2
      · simp only [hr, applyEntryResult]
        have hp2 : h2.pid ≠ p := by
          rw [(resCheck_entry env cfg pe.pid hungList h h2 hr).1, hpid]
          exact hqp
        exact noSeen_replaceFirst p pe.pid h2 hp2 _ hf2

lemma noSeen_CheckSystemProcess (p : Nat) (env : ProcEnv) (cfg : Config)
    (pe : ProcEntry) (hungList : List Nat) (hqp : pe.pid ≠ p)
    (l : List ProcessHistory) (cache : List BalloonCooldown)
    (hl : noSeen p l) :
    noSeen p (CheckSystemProcess env cfg pe hungList l cache).1 := by
  have hf2 : noSeen p (FindOrCreateHistory env pe.pid l).2 :=
    noSeen_FindOrCreateHistory p env pe.pid hqp l hl
  unfold CheckSystemProcess
  dsimp only
  split
  · exact hl
  · split
    · exact hl
    · rcases hf : (FindOrCreateHistory env pe.pid l).1 with _ | h
      · simp only [hf]
        repeat' split
        all_goals exact hf2
      · have hpid : h.pid = pe.pid := FindOrCreateHistory_entry_pid env pe.pid l h hf
        have hp2 : ((CalcCpuUsage true env.times env.nowPerf env.perfFreq h).2).pid ≠ p := by
          rw [(CalcCpuUsage_entry true env.times env.nowPerf env.perfFreq h).1, hpid]
          exact hqp
        simp only [hf]
        repeat' split
        all_goals exact noSeen_replaceFirst p pe.pid _ hp2 _ hf2

lemma noSeen_CheckProcess (p : Nat) (env : ProcEnv) (dirs : SysDirs)
    (selfPid : Nat) (cfg : Config) (pe : ProcEntry) (hungList : List Nat)
    (l : List ProcessHistory) (cache : List BalloonCooldown)
    (hqp : pe.pid ≠ p) (hl : noSeen p l) :
    noSeen p (CheckProcess env dirs selfPid cfg pe hungList l cache).1 := by
  unfold CheckProcess
  dsimp only
  split
  · exact hl
  · split
    · exact noSeen_CheckSystemProcess p env cfg pe hungList hqp l cache hl
    · split
      · exact hl
      · exact noSeen_CheckNormalProcess p env cfg pe hungList hqp l hl

lemma noSeen_runChecks (p : Nat) (envOf : Nat → ProcEnv) (dirs : SysDirs)
    (selfPid : Nat) (cfg : Config) (hungList : List Nat) :
    ∀ (entries : List ProcEntry) (st : List ProcessHistory × List BalloonCooldown),
      (∀ pe ∈ entries, pe.pid ≠ p) → noSeen p st.1 →
      noSeen p (runChecks envOf dirs selfPid cfg hungList entries st).1 := by
  intro entries
  induction entries with
  | nil => intro st _ h; exact h
  | cons pe rest ih =>
    intro st hq hst
    unfold runChecks
    dsimp only
    exact ih _ (fun y hy => hq y (List.mem_cons_of_mem _ hy))
      (noSeen_CheckProcess p (envOf pe.pid) dirs selfPid cfg pe hungList st.1 st.2
        (hq pe (List.mem_cons_self _ _)) hst)

lemma CleanupHistory_no_pid (p : Nat) :
    ∀ l : List ProcessHistory, noSeen p l →
      ∀ x ∈ CleanupHistory l, x.pid ≠ p := by
  intro l
  induction l with
  | nil => intro _ x hx; exact absurd hx (List.not_mem_nil x)
  | cons c t ih =>
    intro hl x hx
    unfold CleanupHistory at hx
    split at hx
    · rcases List.mem_cons.mp hx with hx | hx
      · subst hx
        intro hpid
        have h1 := hl c (List.mem_cons_self _ _) hpid
        simp_all
      · exact ih (fun y hy => hl y (List.mem_cons_of_mem _ hy)) x hx
    · exact ih (fun y hy => hl y (List.mem_cons_of_mem _ hy)) x hx

lemma freshHistory_counters (env : ProcEnv) (q : Nat) :
    (freshHistory env q).terminateAttempts = 0
  ∧ (freshHistory env q).terminateAttemptsHung = 0
  ∧ (freshHistory env q).terminateLogSent = false
  ∧ (freshHistory env q).terminateLogSentHung = false := by
  unfold freshHistory
  dsimp only
  repeat' split
  all_goals exact ⟨rfl, rfl, rfl, rfl⟩

lemma freshHistory_baseline (env : ProcEnv) (q : Nat) (ft : FileTimes)
    (hopen : env.histOpenOk = true) (htimes : env.times = some ft) :
    (freshHistory env q).ftKernel = ft.ftKernel
  ∧ (freshHistory env q).ftUser = ft.ftUser
  ∧ (freshHistory env q).perfTime = env.perfAtCreate := by
  unfold freshHistory
  dsimp only
  rw [if_pos hopen, htimes]
  exact ⟨rfl, rfl, rfl⟩

lemma FindOrCreateHistory_absent (env : ProcEnv) (q : Nat)
    (l : List ProcessHistory)
    (habs : ∀ x ∈ l, x.pid ≠ q) (halloc : env.allocHistOk = true) :
    FindOrCreateHistory env q l
      = (some (freshHistory env q), freshHistory env q :: l) := by
  unfold FindOrCreateHistory
  rw [findHistFirst_none q l habs, if_pos halloc]

/-- C6: a process ID absent from a scan's enumeration has no history
entry left after that scan's sweep (mark-unseen, per-process checks,
cleanup), and a process ID absent from the table gets, on its next
appearance, a freshly created entry with both retry counters and flags
zeroed and a baseline taken from the current process times — no stale
baseline is carried over. -/
theorem claim6_historySweep (envOf : Nat → ProcEnv) (dirs : SysDirs) (selfPid : Nat)
    (cfg : Config) (hungList : List Nat) (entries : List ProcEntry)
    (table : List ProcessHistory) (cache : List BalloonCooldown) (p : Nat)
    (env2 : ProcEnv) (t2 : List ProcessHistory) (ft : FileTimes)
    (habsent : entries.all (fun pe => pe.pid != p) = true)
    (hre : t2.all (fun x => x.pid != p) = true)
    (halloc : env2.allocHistOk = true)
    (hopen : env2.histOpenOk = true)
    (htimes : env2.times = some ft) :
    (scanSweep envOf dirs selfPid cfg hungList entries table cache).all
        (fun x => x.pid != p) = true
  ∧ FindOrCreateHistory env2 p t2
      = (some (freshHistory env2 p), freshHistory env2 p :: t2)
  ∧ (freshHistory env2 p).terminateAttempts = 0
  ∧ (freshHistory env2 p).terminateAttemptsHung = 0
  ∧ (freshHistory env2 p).terminateLogSent = false
  ∧ (freshHistory env2 p).terminateLogSentHung = false
  ∧ (freshHistory env2 p).ftKernel = ft.ftKernel
  ∧ (freshHistory env2 p).ftUser = ft.ftUser
  ∧ (freshHistory env2 p).perfTime = env2.perfAtCreate := by
  obtain ⟨c1, c2, c3, c4⟩ := freshHistory_counters env2 p
  obtain ⟨b1, b2, b3⟩ := freshHistory_baseline env2 p ft hopen htimes
  refine ⟨?_, ?_, c1, c2, c3, c4, b1, b2, b3⟩
  · rw [List.all_eq_true]
    intro x hx
    have hq : ∀ pe ∈ entries, pe.pid ≠ p := by
      intro pe hpe
      simpa using List.all_eq_true.mp habsent pe hpe
    have hns := noSeen_runChecks p envOf dirs selfPid cfg hungList entries
      (markAllUnseen table, cache) hq (noSeen_markAllUnseen p table)
    have hnp := CleanupHistory_no_pid p _ hns x hx
    simpa using hnp
  · apply FindOrCreateHistory_absent
    · intro x hx
      simpa using List.all_eq_true.mp hre x hx
    · exact halloc

/-- C6 witness: a table holding only pid 7, swept against an empty
enumeration, ends empty. -/
theorem claim6_witness :
    (scanSweep (fun _ => sampleEnv) sampleDirs 0 sampleCfg [] [] [sampleHist] []).all
      (fun x => x.pid != 7) = true :=
  (claim6_historySweep (fun _ => sampleEnv) sampleDirs 0 sampleCfg [] [] [sampleHist]
    [] 7 sampleEnv [] ⟨0, 100, 200⟩ (by decide) (by decide) (by decide) (by decide)
    (by decide)).1

end ProcessMonitor
